import Mathlib

/-!
Shallow embedding of the `nes-rust` 6502 emulator core (files `src/cpu.rs`,
`src/status_flags.rs`, `src/opcodes.rs`, `src/rom.rs`) used to settle the
claims of the specification.

Machine integers are modelled as `Nat` with explicit `% 256` / `% 65536`
wherever the Rust code wraps or casts.  Memory is modelled at the level of
the `Mem` trait of `cpu.rs` (`read_mem`/`write_mem`), i.e. as a function
from 16-bit addresses to bytes; the CPU core in the source is written
against that trait, so every claim here is stated for arbitrary memory
contents.  Rust `panic!` / `expect` / `todo!` (stack overflow, unknown
opcode, unsupported addressing mode) are modelled with `Option` or an
explicit `fault` result.
-/

set_option maxRecDepth 16384

/-- `status_flags.rs`: `STATUS_RESET = 0x24`. -/
def STATUS_RESET : Nat := 0x24

/-- `status_flags.rs`: the seven named flags of the processor status byte.
Bit 5 has no named flag (the source comments it as "always set to 1"). -/
inductive StatusFlag where
  | Carry
  | Zero
  | InterruptDisable
  | Decimal
  | B
  | Overflow
  | Negative
deriving DecidableEq, Fintype

/-- `ProcessorStatus::get_mask(..).set` in `status_flags.rs`. -/
def StatusFlag.maskSet : StatusFlag → Nat
  | .Carry => 0x01
  | .Zero => 0x02
  | .InterruptDisable => 0x04
  | .Decimal => 0x08
  | .B => 0x10
  | .Overflow => 0x40
  | .Negative => 0x80

/-- `ProcessorStatus::get_mask(..).unset` in `status_flags.rs`. -/
def StatusFlag.maskUnset : StatusFlag → Nat
  | .Carry => 0xFE
  | .Zero => 0xFD
  | .InterruptDisable => 0xFB
  | .Decimal => 0xF7
  | .B => 0xEF
  | .Overflow => 0xBF
  | .Negative => 0x7F

/-- `ProcessorStatus::set_flag`: OR in the set mask, or AND with the unset
mask, on the status byte. -/
def set_flag (p : Nat) (f : StatusFlag) (bit : Bool) : Nat :=
  match bit with
  | true => p ||| f.maskSet
  | false => p &&& f.maskUnset

/-- `ProcessorStatus::get_flag`: the source tests
`(mask & status).count_ones() != 0`, i.e. whether `mask & status` is
nonzero. -/
def get_flag (p : Nat) (f : StatusFlag) : Bool :=
  (f.maskSet &&& p) != 0

/-- `ProcessorStatus::set_from_byte`: replaces the whole status byte by the
argument, with no masking or forcing of any bit. -/
def set_from_byte (_p : Nat) (byte : Nat) : Nat :=
  byte

/-- `ProcessorStatus::update_zero_and_negative_registers`: Z ← (v == 0),
N ← (v & 0x80 != 0). -/
def update_zero_and_negative_registers (p v : Nat) : Nat :=
  set_flag (set_flag p .Zero (v == 0)) .Negative ((v &&& 0x80) != 0)

/-- `cpu.rs`: `const STACK: u16 = 0x100`. -/
def STACK : Nat := 0x100

/-- `cpu.rs`: `pub const STACK_RESET: u8 = 0xFD`. -/
def STACK_RESET : Nat := 0xFD

/-- The CPU state of `cpu.rs` (`struct CPU`), with the bus replaced by the
`Mem`-trait view of memory: a function from 16-bit address to byte. -/
structure CPU where
  program_counter : Nat
  stack_pointer : Nat
  register_accumulator : Nat
  index_register_x : Nat
  index_register_y : Nat
  status : Nat
  mem : Nat → Nat

/-- `Mem::read_mem`. -/
def CPU.read_mem (c : CPU) (addr : Nat) : Nat :=
  c.mem addr

/-- `Mem::write_mem`: point update of memory. -/
def CPU.write_mem (c : CPU) (addr v : Nat) : CPU :=
  { c with mem := fun a => if a = addr then v else c.mem a }

/-- `Mem::read_mem_u16`: little-endian 16-bit read; the `addr + 1` is u16
arithmetic, hence the `% 65536`. -/
def CPU.read_mem_u16 (c : CPU) (addr : Nat) : Nat :=
  c.mem addr + 256 * c.mem ((addr + 1) % 65536)

/-- `cpu.rs`: the ten addressing modes. -/
inductive AddressingMode where
  | Immediate
  | ZeroPage
  | ZeroPage_X
  | ZeroPage_Y
  | Absolute
  | Absolute_X
  | Absolute_Y
  | Indirect_X
  | Indirect_Y
  | NoneAddressing
deriving DecidableEq

/-- `CPU::get_operand_address`.  `NoneAddressing` panics in the source
("mode not supported"), modelled by `none`.  All `wrapping_add` on `u8`
becomes `% 256`, on `u16` becomes `% 65536`. -/
def CPU.get_operand_address (c : CPU) (mode : AddressingMode) : Option Nat :=
  match mode with
  | .Immediate => some c.program_counter
  | .ZeroPage => some (c.read_mem c.program_counter)
  | .ZeroPage_X =>
      some ((c.index_register_x + c.read_mem c.program_counter) % 256)
  | .ZeroPage_Y =>
      some ((c.index_register_y + c.read_mem c.program_counter) % 256)
  | .Absolute => some (c.read_mem_u16 c.program_counter)
  | .Absolute_X =>
      some ((c.read_mem_u16 c.program_counter + c.index_register_x) % 65536)
  | .Absolute_Y =>
      some ((c.read_mem_u16 c.program_counter + c.index_register_y) % 65536)
  | .Indirect_X =>
      let ptr := (c.read_mem c.program_counter + c.index_register_x) % 256
      some (c.read_mem ptr + 256 * c.read_mem ((ptr + 1) % 256))
  | .Indirect_Y =>
      let param := c.read_mem c.program_counter
      let base := c.read_mem param + 256 * c.read_mem ((param + 1) % 256)
      some ((base + c.index_register_y) % 65536)
  | .NoneAddressing => none

/-- `CPU::load_accumulator`: store into A and update Z/N from A. -/
def CPU.load_accumulator (c : CPU) (value : Nat) : CPU :=
  { c with
    register_accumulator := value
    status := update_zero_and_negative_registers c.status value }

/-- `CPU::add_width_carry` (sic): the ADC/SBC core.  The 16-bit sum never
overflows `u16`, so no masking is needed on it; `result as u8` is `% 256`.
Note the overflow test reads `self.register_accumulator` before
`load_accumulator` replaces it, i.e. it uses the old A. -/
def CPU.add_width_carry (c : CPU) (value : Nat) : CPU :=
  let carry0 : Nat := if get_flag c.status .Carry then 1 else 0
  let sum : Nat := c.register_accumulator + value + carry0
  let carry : Bool := sum > 0xFF
  let result : Nat := sum % 256
  let st1 := set_flag c.status .Carry carry
  let overflow : Bool :=
    ((value ^^^ result) &&& (result ^^^ c.register_accumulator) &&& 0x80) != 0
  let st2 := set_flag st1 .Overflow overflow
  CPU.load_accumulator { c with status := st2 } result

/-- `CPU::adc`: resolve the operand address, read the byte, add with carry.
`none` when the addressing mode is unsupported (source panic). -/
def CPU.adc (c : CPU) (mode : AddressingMode) : Option CPU :=
  match c.get_operand_address mode with
  | some addr => some (c.add_width_carry (c.read_mem addr))
  | none => none

/-- `CPU::sbc`: adds `((value as i8).wrapping_neg().wrapping_sub(1)) as u8`,
i.e. the byte-complement `255 - value` for a byte value. -/
def CPU.sbc (c : CPU) (mode : AddressingMode) : Option CPU :=
  match c.get_operand_address mode with
  | some addr => some (c.add_width_carry ((255 + 256 - c.read_mem addr) % 256))
  | none => none

/-- `CPU::asl`: carry from bit 7, shift left (u8 shift drops bit 7). -/
def CPU.asl (c : CPU) (value : Nat) : CPU × Nat :=
  let carry : Bool := (value &&& 0x80) != 0
  ({ c with status := set_flag c.status .Carry carry }, (value <<< 1) % 256)

/-- `CPU::lsr`: carry from bit 0, shift right. -/
def CPU.lsr (c : CPU) (value : Nat) : CPU × Nat :=
  let carry : Bool := (value &&& 0x01) != 0
  ({ c with status := set_flag c.status .Carry carry }, value >>> 1)

/-- `CPU::rol`: the source computes `carry` from bit 7 of the value and
returns `(value << 1) | carry as u8` — the bit ORed into bit 0 is that
freshly computed carry, not the previous carry flag. -/
def CPU.rol (c : CPU) (value : Nat) : CPU × Nat :=
  let carry : Bool := (value &&& 0x80) != 0
  ({ c with status := set_flag c.status .Carry carry },
    ((value <<< 1) % 256) ||| (if carry then 1 else 0))

/-- `CPU::ror`: `carry` comes from bit 0 of the value and
`(carry as u8).reverse_bits()` (= 0x80 when carry) is ORed into bit 7 —
again the freshly computed carry, not the previous carry flag. -/
def CPU.ror (c : CPU) (value : Nat) : CPU × Nat :=
  let carry : Bool := (value &&& 0x01) != 0
  ({ c with status := set_flag c.status .Carry carry },
    (value >>> 1) ||| (if carry then 0x80 else 0))

/-- Sign-extension of a byte displacement: `byte as i8 as u16`. -/
def signExtendByte (b : Nat) : Nat :=
  if b < 0x80 then b else b + 0xFF00

/-- `CPU::branch`: when the condition holds, PC ← PC + 1 + displacement
(all `wrapping_add` on u16). -/
def CPU.branch (c : CPU) (condition : Bool) : CPU :=
  if condition then
    let disp := signExtendByte (c.read_mem c.program_counter)
    { c with program_counter := (c.program_counter + 1 + disp) % 65536 }
  else c

/-- `CPU::compare`: C ← (reg ≥ M), Z/N from `reg.wrapping_sub(M)`. -/
def CPU.compare (c : CPU) (mode : AddressingMode) (other : Nat) : Option CPU :=
  match c.get_operand_address mode with
  | some addr =>
      let value := c.read_mem addr
      let st1 := set_flag c.status .Carry (other ≥ value)
      some { c with
        status := update_zero_and_negative_registers st1
          ((other + 256 - value) % 256) }
  | none => none

/-- `CPU::decrement`. -/
def CPU.decrement (c : CPU) (value : Nat) : CPU × Nat :=
  let result := (value + 255) % 256
  ({ c with status := update_zero_and_negative_registers c.status result },
    result)

/-- `CPU::increment`. -/
def CPU.increment (c : CPU) (value : Nat) : CPU × Nat :=
  let result := (value + 1) % 256
  ({ c with status := update_zero_and_negative_registers c.status result },
    result)

/-- `CPU::stack_push`: writes at `0x100 + SP` and decrements SP while
`SP > 0`; at `SP = 0` the source executes `panic!("Stack Overflow!")`,
modelled by `none`. -/
def CPU.stack_push (c : CPU) (value : Nat) : Option CPU :=
  if c.stack_pointer > 0 then
    let c' := c.write_mem (STACK + c.stack_pointer) value
    some { c' with stack_pointer := c.stack_pointer - 1 }
  else
    none

/-- `CPU::stack_push_u16`: pushes the low byte, then the high byte. -/
def CPU.stack_push_u16 (c : CPU) (value : Nat) : Option CPU :=
  match c.stack_push (value % 256) with
  | some c' => c'.stack_push (value / 256 % 256)
  | none => none

/-- `CPU::stack_pull`: reads from `0x100 + SP + 1` (computed in u16, so no
wrap back into page 1) and increments SP only while `SP < STACK_RESET`.
Returns the new state and the byte read. -/
def CPU.stack_pull (c : CPU) : CPU × Nat :=
  let value := c.read_mem (STACK + c.stack_pointer + 1)
  if c.stack_pointer < STACK_RESET then
    ({ c with stack_pointer := c.stack_pointer + 1 }, value)
  else
    (c, value)

/-- `CPU::stack_pull_u16`: pulls two bytes; the first pulled byte is the
high byte of the result (`u16::from_le_bytes([big, little])` with the
source's swapped variable names). -/
def CPU.stack_pull_u16 (c : CPU) : CPU × Nat :=
  let r1 := c.stack_pull
  let r2 := r1.1.stack_pull
  (r2.1, r2.2 + 256 * r1.2)

/-- The JMP-indirect target computation of the `"JMP"` arm of
`execute_with_callback`: when the pointer's low byte is 0xFF the high byte
of the target is read from `ptr & 0xFF00` (the 6502 page-boundary bug),
otherwise a normal little-endian 16-bit read at `ptr`. -/
def jmp_indirect_target (m : Nat → Nat) (addr : Nat) : Nat :=
  if addr &&& 0x00FF == 0x00FF then
    m addr + 256 * m (addr &&& 0xFF00)
  else
    m addr + 256 * m ((addr + 1) % 65536)

/-- One record of the opcode table in `opcodes.rs` (`struct OpCode`). -/
structure OpCode where
  opcode : Nat
  label : String
  bytes : Nat
  cycles : Nat
  addressing_mode : AddressingMode

set_option maxHeartbeats 1000000 in
/-- `opcodes.rs`: `CPU_OPCODES`, the static opcode table, entry for entry.
Note that it covers only a subset of the instructions the dispatch in
`cpu.rs` implements (no JMP/JSR/RTS/LSR/ROL/ROR/EOR/ORA/INC/LDX/LDY/PLA/
STX/STY/NOP/SEC/SED/SEI/transfer entries are present). -/
def CPU_OPCODES : List OpCode := [
  ⟨0x69, "ADC", 2, 2, .Immediate⟩,
  ⟨0x65, "ADC", 2, 3, .ZeroPage⟩,
  ⟨0x75, "ADC", 2, 4, .ZeroPage_X⟩,
  ⟨0x6D, "ADC", 3, 4, .Absolute⟩,
  ⟨0x7D, "ADC", 3, 4, .Absolute_X⟩,
  ⟨0x79, "ADC", 3, 4, .Absolute_Y⟩,
  ⟨0x61, "ADC", 2, 6, .Indirect_X⟩,
  ⟨0x71, "ADC", 2, 5, .Indirect_Y⟩,
  ⟨0x29, "AND", 2, 2, .Immediate⟩,
  ⟨0x25, "AND", 2, 3, .ZeroPage⟩,
  ⟨0x35, "AND", 2, 4, .ZeroPage_X⟩,
  ⟨0x2D, "AND", 3, 4, .Absolute⟩,
  ⟨0x3D, "AND", 3, 4, .Absolute_X⟩,
  ⟨0x39, "AND", 3, 4, .Absolute_Y⟩,
  ⟨0x21, "AND", 2, 6, .Indirect_X⟩,
  ⟨0x31, "AND", 2, 5, .Indirect_Y⟩,
  ⟨0x0A, "ASL", 1, 2, .NoneAddressing⟩,
  ⟨0x06, "ASL", 2, 5, .ZeroPage⟩,
  ⟨0x16, "ASL", 2, 6, .ZeroPage_X⟩,
  ⟨0x0E, "ASL", 3, 6, .Absolute⟩,
  ⟨0x1E, "ASL", 3, 7, .Absolute_X⟩,
  ⟨0x90, "BCC", 2, 2, .NoneAddressing⟩,
  ⟨0xB0, "BCS", 2, 2, .NoneAddressing⟩,
  ⟨0xF0, "BEQ", 2, 2, .NoneAddressing⟩,
  ⟨0x24, "BIT", 2, 3, .ZeroPage⟩,
  ⟨0x2C, "BIT", 3, 4, .Absolute⟩,
  ⟨0x30, "BMI", 2, 2, .NoneAddressing⟩,
  ⟨0xD0, "BNE", 2, 2, .NoneAddressing⟩,
  ⟨0x10, "BPL", 2, 2, .NoneAddressing⟩,
  ⟨0x00, "BRK", 1, 7, .NoneAddressing⟩,
  ⟨0x50, "BVC", 2, 2, .NoneAddressing⟩,
  ⟨0x70, "BVS", 2, 2, .NoneAddressing⟩,
  ⟨0x18, "CLC", 1, 2, .NoneAddressing⟩,
  ⟨0xD8, "CLD", 1, 2, .NoneAddressing⟩,
  ⟨0x58, "CLI", 1, 2, .NoneAddressing⟩,
  ⟨0xB8, "CLV", 1, 2, .NoneAddressing⟩,
  ⟨0xC9, "CMP", 2, 2, .Immediate⟩,
  ⟨0xC5, "CMP", 2, 3, .ZeroPage⟩,
  ⟨0xD5, "CMP", 2, 4, .ZeroPage_X⟩,
  ⟨0xCD, "CMP", 3, 4, .Absolute⟩,
  ⟨0xDD, "CMP", 3, 4, .Absolute_X⟩,
  ⟨0xD9, "CMP", 3, 4, .Absolute_Y⟩,
  ⟨0xC1, "CMP", 2, 6, .Indirect_X⟩,
  ⟨0xD1, "CMP", 2, 5, .Indirect_Y⟩,
  ⟨0xE0, "CPX", 2, 2, .Immediate⟩,
  ⟨0xE4, "CPX", 2, 3, .ZeroPage⟩,
  ⟨0xEC, "CPX", 3, 4, .Absolute⟩,
  ⟨0xC0, "CPY", 2, 2, .Immediate⟩,
  ⟨0xC4, "CPY", 2, 3, .ZeroPage⟩,
  ⟨0xCC, "CPY", 3, 4, .Absolute⟩,
  ⟨0xC6, "DEC", 2, 5, .ZeroPage⟩,
  ⟨0xD6, "DEC", 2, 6, .ZeroPage_X⟩,
  ⟨0xCE, "DEC", 3, 6, .Absolute⟩,
  ⟨0xDE, "DEC", 3, 7, .Absolute_X⟩,
  ⟨0xCA, "DEX", 1, 2, .NoneAddressing⟩,
  ⟨0x88, "DEY", 1, 2, .NoneAddressing⟩,
  ⟨0x08, "PHP", 1, 3, .NoneAddressing⟩,
  ⟨0x48, "PHA", 1, 3, .NoneAddressing⟩,
  ⟨0x28, "PLP", 1, 4, .NoneAddressing⟩,
  ⟨0x40, "RTI", 1, 6, .NoneAddressing⟩,
  ⟨0xAA, "TAX", 1, 2, .NoneAddressing⟩,
  ⟨0xE8, "INX", 1, 2, .NoneAddressing⟩,
  ⟨0xA9, "LDA", 2, 2, .Immediate⟩,
  ⟨0xA5, "LDA", 2, 2, .ZeroPage⟩,
  ⟨0xB5, "LDA", 2, 4, .ZeroPage_X⟩,
  ⟨0xAD, "LDA", 3, 4, .Absolute⟩,
  ⟨0xBD, "LDA", 3, 4, .Absolute_X⟩,
  ⟨0xB9, "LDA", 3, 4, .Absolute_Y⟩,
  ⟨0xA1, "LDA", 2, 6, .Indirect_X⟩,
  ⟨0xB1, "LDA", 2, 5, .Indirect_Y⟩,
  ⟨0x85, "STA", 2, 3, .ZeroPage⟩,
  ⟨0x95, "STA", 2, 4, .ZeroPage_X⟩,
  ⟨0x8D, "STA", 2, 4, .Absolute⟩,
  ⟨0x9D, "STA", 2, 5, .Absolute_X⟩,
  ⟨0x99, "STA", 3, 5, .Absolute_Y⟩,
  ⟨0x81, "STA", 2, 6, .Indirect_X⟩,
  ⟨0x91, "STA", 2, 6, .Indirect_Y⟩,
  ⟨0xE9, "SBC", 2, 2, .Immediate⟩,
  ⟨0xE5, "SBC", 2, 3, .ZeroPage⟩,
  ⟨0xF5, "SBC", 2, 4, .ZeroPage_X⟩,
  ⟨0xED, "SBC", 3, 4, .Absolute⟩,
  ⟨0xFD, "SBC", 3, 4, .Absolute_X⟩,
  ⟨0xF9, "SBC", 3, 4, .Absolute_Y⟩,
  ⟨0xE1, "SBC", 2, 6, .Indirect_X⟩,
  ⟨0xF1, "SBC", 2, 5, .Indirect_Y⟩]

/-- `opcodes.rs`: `CPU_OPCODES_MAP`, lookup of an opcode byte (all opcode
bytes in the table are distinct, so list search equals the HashMap). -/
def CPU_OPCODES_MAP (code : Nat) : Option OpCode :=
  List.find? (fun o => o.opcode == code) CPU_OPCODES

/-- Result of executing one instruction arm of `execute_with_callback`:
continue, halt (the `return` of the BRK arm), or a Rust panic
(`fault`: unknown opcode, unsupported addressing mode, stack overflow,
`todo!()`). -/
inductive Exec where
  | ok (c : CPU)
  | halt (c : CPU)
  | fault

/-- Plumbing for arms that resolve an operand address first; the source
panics when the mode is unsupported. -/
def withAddr (c : CPU) (mode : AddressingMode) (k : Nat → Exec) : Exec :=
  match c.get_operand_address mode with
  | some addr => k addr
  | none => .fault

/-- Plumbing for arms that push onto the stack; the source panics on stack
overflow. -/
def withPush (r : Option CPU) : Exec :=
  match r with
  | some c => .ok c
  | none => .fault

/-- The dispatch `match opcode.label { ... }` of
`CPU::execute_with_callback`, arm for arm.  `c` is the state after the
opcode fetch (PC already incremented past the opcode byte).  The final
wildcard arm is `todo!()` in the source, modelled as `fault`. -/
def execArm (c : CPU) (op : OpCode) : Exec :=
  match op.label with
  | "ADC" =>
      match c.adc op.addressing_mode with
      | some c' => .ok c'
      | none => .fault
  | "AND" =>
      withAddr c op.addressing_mode fun addr =>
        let value := c.read_mem addr
        let a := c.register_accumulator &&& value
        .ok { c with
          register_accumulator := a
          status := update_zero_and_negative_registers c.status a }
  | "ASL" =>
      match op.addressing_mode with
      | .NoneAddressing =>
          let r := c.asl c.register_accumulator
          let c' := { r.1 with register_accumulator := r.2 }
          .ok { c' with
            status := update_zero_and_negative_registers c'.status
              c'.register_accumulator }
      | _ =>
          withAddr c op.addressing_mode fun addr =>
            let value := c.read_mem addr
            let r := c.asl value
            let c' := r.1.write_mem addr r.2
            .ok { c' with
              status := update_zero_and_negative_registers c'.status
                c'.register_accumulator }
  | "BCC" => .ok (c.branch (!(get_flag c.status .Carry)))
  | "BCS" => .ok (c.branch (get_flag c.status .Carry))
  | "BEQ" => .ok (c.branch (get_flag c.status .Zero))
  | "BIT" =>
      withAddr c op.addressing_mode fun addr =>
        let result := c.register_accumulator &&& c.read_mem addr
        let overflow : Bool := (result &&& 0x40) != 0
        let st1 := set_flag c.status .Overflow overflow
        .ok { c with status := update_zero_and_negative_registers st1 result }
  | "BMI" => .ok (c.branch (get_flag c.status .Negative))
  | "BNE" => .ok (c.branch (!(get_flag c.status .Zero)))
  | "BPL" => .ok (c.branch (!(get_flag c.status .Negative)))
  | "BRK" => .halt c
  | "BVC" => .ok (c.branch (!(get_flag c.status .Overflow)))
  | "BVS" => .ok (c.branch (get_flag c.status .Overflow))
  | "CLC" => .ok { c with status := set_flag c.status .Carry false }
  | "CLD" => .ok { c with status := set_flag c.status .Decimal false }
  | "CLI" => .ok { c with status := set_flag c.status .InterruptDisable false }
  | "CLV" => .ok { c with status := set_flag c.status .Overflow false }
  | "CMP" =>
      match c.compare op.addressing_mode c.register_accumulator with
      | some c' => .ok c'
      | none => .fault
  | "CPX" =>
      match c.compare op.addressing_mode c.index_register_x with
      | some c' => .ok c'
      | none => .fault
  | "CPY" =>
      match c.compare op.addressing_mode c.index_register_y with
      | some c' => .ok c'
      | none => .fault
  | "DEC" =>
      withAddr c op.addressing_mode fun addr =>
        let r := c.decrement (c.read_mem addr)
        .ok (r.1.write_mem addr r.2)
  | "DEX" =>
      let r := c.decrement c.index_register_x
      .ok { r.1 with index_register_x := r.2 }
  | "DEY" =>
      let r := c.decrement c.index_register_y
      .ok { r.1 with index_register_y := r.2 }
  | "EOR" =>
      withAddr c op.addressing_mode fun addr =>
        .ok (c.load_accumulator (c.register_accumulator ^^^ c.read_mem addr))
  | "INC" =>
      withAddr c op.addressing_mode fun addr =>
        let r := c.increment (c.read_mem addr)
        .ok (r.1.write_mem addr r.2)
  | "INX" =>
      let r := c.increment c.index_register_x
      .ok { r.1 with index_register_x := r.2 }
  | "INY" =>
      let r := c.increment c.index_register_y
      .ok { r.1 with index_register_y := r.2 }
  | "JMP" =>
      match op.addressing_mode with
      | .Absolute =>
          withAddr c op.addressing_mode fun addr =>
            .ok { c with program_counter := addr }
      | _ =>
          let addr := c.read_mem_u16 c.program_counter
          .ok { c with program_counter := jmp_indirect_target c.mem addr }
  | "JSR" =>
      match c.stack_push_u16 ((c.program_counter + 1) % 65536) with
      | some c' =>
          withAddr c' op.addressing_mode fun addr =>
            .ok { c' with program_counter := addr }
      | none => .fault
  | "LDA" =>
      withAddr c op.addressing_mode fun addr =>
        .ok (c.load_accumulator (c.read_mem addr))
  | "LDX" =>
      withAddr c op.addressing_mode fun addr =>
        let value := c.read_mem addr
        .ok { c with
          index_register_x := value
          status := update_zero_and_negative_registers c.status value }
  | "LDY" =>
      withAddr c op.addressing_mode fun addr =>
        let value := c.read_mem addr
        .ok { c with
          index_register_y := value
          status := update_zero_and_negative_registers c.status value }
  | "LSR" =>
      match op.addressing_mode with
      | .NoneAddressing =>
          let r := c.lsr c.register_accumulator
          let c' := { r.1 with register_accumulator := r.2 }
          .ok { c' with
            status := update_zero_and_negative_registers c'.status
              c'.register_accumulator }
      | _ =>
          withAddr c op.addressing_mode fun addr =>
            let value := c.read_mem addr
            let r := c.lsr value
            let c' := r.1.write_mem addr r.2
            .ok { c' with
              status := update_zero_and_negative_registers c'.status
                c'.register_accumulator }
  | "NOP" => .ok c
  | "ORA" =>
      withAddr c op.addressing_mode fun addr =>
        .ok (c.load_accumulator (c.register_accumulator ||| c.read_mem addr))
  | "PHA" => withPush (c.stack_push c.register_accumulator)
  | "PHP" =>
      let c' := { c with status := set_flag c.status .B true }
      withPush (c'.stack_push c'.status)
  | "PLA" =>
      let r := c.stack_pull
      .ok (r.1.load_accumulator r.2)
  | "PLP" =>
      let r := c.stack_pull
      .ok { r.1 with status := set_from_byte r.1.status r.2 }
  | "ROL" =>
      match op.addressing_mode with
      | .NoneAddressing =>
          let r := c.rol c.register_accumulator
          let c' := { r.1 with register_accumulator := r.2 }
          .ok { c' with
            status := update_zero_and_negative_registers c'.status
              c'.register_accumulator }
      | _ =>
          withAddr c op.addressing_mode fun addr =>
            let value := c.read_mem addr
            let r := c.rol value
            let c' := r.1.write_mem addr r.2
            .ok { c' with
              status := update_zero_and_negative_registers c'.status
                c'.register_accumulator }
  | "ROR" =>
      match op.addressing_mode with
      | .NoneAddressing =>
          let r := c.ror c.register_accumulator
          let c' := { r.1 with register_accumulator := r.2 }
          .ok { c' with
            status := update_zero_and_negative_registers c'.status
              c'.register_accumulator }
      | _ =>
          withAddr c op.addressing_mode fun addr =>
            let value := c.read_mem addr
            let r := c.ror value
            let c' := r.1.write_mem addr r.2
            .ok { c' with
              status := update_zero_and_negative_registers c'.status
                c'.register_accumulator }
  | "RTI" =>
      let r := c.stack_pull
      let c1 := { r.1 with status := set_from_byte r.1.status r.2 }
      let r2 := c1.stack_pull_u16
      .ok { r2.1 with program_counter := r2.2 }
  | "RTS" =>
      let r := c.stack_pull_u16
      .ok { r.1 with program_counter := (r.2 + 1) % 65536 }
  | "SBC" =>
      match c.sbc op.addressing_mode with
      | some c' => .ok c'
      | none => .fault
  | "SEC" => .ok { c with status := set_flag c.status .Carry true }
  | "SED" => .ok { c with status := set_flag c.status .Decimal true }
  | "SEI" => .ok { c with status := set_flag c.status .InterruptDisable true }
  | "STA" =>
      withAddr c op.addressing_mode fun addr =>
        .ok (c.write_mem addr c.register_accumulator)
  | "STX" =>
      withAddr c op.addressing_mode fun addr =>
        .ok (c.write_mem addr c.index_register_x)
  | "STY" =>
      withAddr c op.addressing_mode fun addr =>
        .ok (c.write_mem addr c.index_register_y)
  | "TAX" =>
      .ok { c with
        index_register_x := c.register_accumulator
        status := update_zero_and_negative_registers c.status
          c.register_accumulator }
  | "TAY" =>
      .ok { c with
        index_register_y := c.register_accumulator
        status := update_zero_and_negative_registers c.status
          c.register_accumulator }
  | "TSX" =>
      .ok { c with
        index_register_x := c.stack_pointer
        status := update_zero_and_negative_registers c.status
          c.stack_pointer }
  | "TXA" => .ok (c.load_accumulator c.index_register_x)
  | "TXS" =>
      .ok { c with
        stack_pointer := c.index_register_x
        status := update_zero_and_negative_registers c.status
          c.index_register_x }
  | "TYA" => .ok (c.load_accumulator c.index_register_y)
  | _ => .fault

/-- `CPU::fetch`. -/
def CPU.fetch (c : CPU) : Nat :=
  c.read_mem c.program_counter

/-- One iteration of the `loop` in `CPU::execute_with_callback` (the
callback itself is the identity here, as in `CPU::execute`): fetch, advance
PC, look up the opcode (panic if unknown), run the arm, and afterwards add
`bytes - 1` to PC exactly when the arm left PC at its post-fetch value. -/
def CPU.step (c : CPU) : Exec :=
  let code := c.fetch
  let c1 := { c with program_counter := (c.program_counter + 1) % 65536 }
  let pcState := c1.program_counter
  match CPU_OPCODES_MAP code with
  | none => .fault
  | some op =>
    match execArm c1 op with
    | .ok c2 =>
        if pcState == c2.program_counter then
          .ok { c2 with
            program_counter := (c2.program_counter + (op.bytes - 1)) % 65536 }
        else
          .ok c2
    | .halt c2 => .halt c2
    | .fault => .fault

/-- `step` specialised to the continuing case. -/
def CPU.stepNext (c : CPU) : Option CPU :=
  match c.step with
  | .ok c' => some c'
  | _ => none

/-- Iterate `stepNext`. -/
def runN : Nat → CPU → Option CPU
  | 0, c => some c
  | Nat.succ n, c =>
    match c.stepNext with
    | some c' => runN n c'
    | none => none

/-- `CPU::reset` composed with `CPU::new`: PC from the reset vector at
0xFFFC/0xFFFD, SP = 0xFD, A = X = Y = 0, P = 0x24, over the given memory. -/
def resetCPU (m : Nat → Nat) : CPU :=
  { program_counter := m 0xFFFC + 256 * m 0xFFFD
    stack_pointer := STACK_RESET
    register_accumulator := 0
    index_register_x := 0
    index_register_y := 0
    status := STATUS_RESET
    mem := m }

/-- `rom.rs`: screen mirroring kinds. -/
inductive Mirroring where
  | Vertical
  | Horizontal
  | FourScreen
deriving DecidableEq

/-- `rom.rs`: the parsed cartridge. -/
structure ROM where
  trainer : Bool
  mapper : Nat
  screen_mirroring : Mirroring
  prg_rom : List Nat
  chr_rom : List Nat
deriving DecidableEq

/-- Outcome of `ROM::new`: success, a recoverable `Err(String)`, or a Rust
panic (out-of-bounds index/slice, `unreachable!`), modelled as `crash`. -/
inductive RomResult where
  | ok (rom : ROM)
  | err (msg : String)
  | crash
deriving DecidableEq

/-- `rom.rs`: `NES_TAG`. -/
def NES_TAG : List Nat := [0x4E, 0x45, 0x53, 0x1A]

/-- `rom.rs`: `PRG_ROM_PAGE_SIZE`. -/
def PRG_ROM_PAGE_SIZE : Nat := 16384

/-- `rom.rs`: `CHR_ROM_PAGE_SIZE`. -/
def CHR_ROM_PAGE_SIZE : Nat := 8192

/-- `rom.rs`: `TRAINER_SIZE`. -/
def TRAINER_SIZE : Nat := 512

/-- `ROM::new`, statement for statement.  The version test in the source is
`raw[7] & 0b0000_1100 >> 2`, and in Rust `>>` binds tighter than `&`, so it
computes `raw[7] & (0b0000_1100 >> 2) = raw[7] & 0b11` — bits 0 and 1 of
byte 7, not bits 2 and 3; the embedding keeps that parse.  Out-of-range
indexing or slicing panics in Rust and yields `crash` here. -/
def ROM.new (raw : List Nat) : RomResult :=
  if raw.length < 4 then .crash
  else if raw.take 4 ≠ NES_TAG then .err "Invalid NES file"
  else if raw.length ≤ 7 then .crash
  else
    let b6 := raw.getD 6 0
    let b7 := raw.getD 7 0
    let version := b7 &&& (0x0C >>> 2)
    if version ≠ 0 then .err "Only iNES version 1 supported"
    else
      let mapper := (b7 &&& 0xF0) ||| (b6 >>> 4)
      if mapper ≠ 0 then .err "Rom's mapper not supported yet"
      else
        let four_screen := (b6 &&& 0x08) >>> 3
        let mirroring := b6 &&& 0x01
        let screen_mirroring : Option Mirroring :=
          match four_screen, mirroring with
          | 1, _ => some .FourScreen
          | 0, 0 => some .Horizontal
          | 0, 1 => some .Vertical
          | _, _ => none
        match screen_mirroring with
        | none => .crash
        | some sm =>
          let trainer := ((b6 &&& 0x04) >>> 2) * TRAINER_SIZE
          let prg_rom_size := raw.getD 4 0 * PRG_ROM_PAGE_SIZE
          let prg_rom_start := 16 + trainer
          if prg_rom_start + prg_rom_size > raw.length then .crash
          else
            let prg_rom := (raw.drop prg_rom_start).take prg_rom_size
            let chr_rom_size := raw.getD 5 0 * CHR_ROM_PAGE_SIZE
            let chr_rom_start := prg_rom_start + prg_rom_size
            if chr_rom_start + chr_rom_size > raw.length then .crash
            else
              let chr_rom := (raw.drop chr_rom_start).take chr_rom_size
              .ok ⟨trainer > 0, mapper, sm, prg_rom, chr_rom⟩

/-! Helper lemmas about the status byte. -/

/-- Setting a flag keeps the status a byte. -/
theorem set_flag_lt :
    ∀ p < 256, ∀ (f : StatusFlag) (b : Bool), set_flag p f b < 256 := by
  decide

/-- Reading a flag after setting one: the set flag reads back as written,
every other flag is untouched. -/
theorem get_flag_set_flag :
    ∀ p < 256, ∀ (f f' : StatusFlag) (b : Bool),
      get_flag (set_flag p f b) f' = if f' = f then b else get_flag p f' := by
  decide

/-- `update_zero_and_negative_registers` keeps the status a byte. -/
theorem update_zn_lt (p v : Nat) (hp : p < 256) :
    update_zero_and_negative_registers p v < 256 := by
  unfold update_zero_and_negative_registers
  exact set_flag_lt _ (set_flag_lt _ hp _ _) _ _

/-- Z after `update_zero_and_negative_registers`. -/
theorem get_update_zn_Zero (p v : Nat) (hp : p < 256) :
    get_flag (update_zero_and_negative_registers p v) .Zero = (v == 0) := by
  unfold update_zero_and_negative_registers
  rw [get_flag_set_flag _ (set_flag_lt _ hp _ _) _ _ _,
    get_flag_set_flag _ hp _ _ _]
  simp

/-- N after `update_zero_and_negative_registers`. -/
theorem get_update_zn_Negative (p v : Nat) (hp : p < 256) :
    get_flag (update_zero_and_negative_registers p v) .Negative =
      ((v &&& 0x80) != 0) := by
  unfold update_zero_and_negative_registers
  rw [get_flag_set_flag _ (set_flag_lt _ hp _ _) _ _ _]
  simp

/-- Flags other than Z and N are preserved by
`update_zero_and_negative_registers`. -/
theorem get_update_zn_other (p v : Nat) (hp : p < 256) (f : StatusFlag)
    (h1 : f ≠ .Zero) (h2 : f ≠ .Negative) :
    get_flag (update_zero_and_negative_registers p v) f = get_flag p f := by
  unfold update_zero_and_negative_registers
  rw [get_flag_set_flag _ (set_flag_lt _ hp _ _) _ _ _,
    get_flag_set_flag _ hp _ _ _]
  simp [h1, h2]

/-- For a byte, "bit 7 is set" as the source tests it (`v & 0x80 != 0`)
agrees with `Nat.testBit`. -/
theorem land_eighty_testBit :
    ∀ v < 256, ((v &&& 0x80) != 0) = v.testBit 7 := by
  decide

/-! Bit-mask arithmetic helpers for 16-bit addresses. -/

/-- `x & 0xFF` extracts the low byte. -/
theorem and_mask_ff (x : Nat) : x &&& 0xFF = x % 256 := by
  have h : (0xFF : Nat) = 2 ^ 8 - 1 := rfl
  rw [h, Nat.and_pow_two_sub_one_eq_mod]

/-- Masking against a shifted mask is a shifted mask of the shifted value. -/
theorem and_shiftLeft_mask (x y k : Nat) :
    x &&& (y <<< k) = ((x >>> k) &&& y) <<< k := by
  apply Nat.eq_of_testBit_eq
  intro i
  simp only [Nat.testBit_and, Nat.testBit_shiftLeft, Nat.testBit_shiftRight]
  by_cases h : k ≤ i
  · have h2 : k + (i - k) = i := by omega
    simp [h, ge_iff_le, h2, Bool.and_comm, Bool.and_left_comm]
  · simp [h, ge_iff_le]

/-- `x & 0xFF00` extracts the second byte, in place. -/
theorem and_mask_ff00 (x : Nat) : x &&& 0xFF00 = x / 256 % 256 * 256 := by
  have h : (0xFF00 : Nat) = (0xFF : Nat) <<< 8 := rfl
  rw [h, and_shiftLeft_mask, and_mask_ff, Nat.shiftRight_eq_div_pow,
    Nat.shiftLeft_eq]

/-- ORing a byte into a multiple of 256 is addition. -/
theorem or_mul_add (h m : Nat) (hm : m < 256) :
    (h * 256) ||| m = h * 256 + m := by
  apply Nat.eq_of_testBit_eq
  intro i
  have h1 : h * 256 + m = 2 ^ 8 * h + m := by ring_nf
  have h2 : h * 256 = 2 ^ 8 * h + 0 := by ring_nf
  have hb0 : (0 : Nat) < 2 ^ 8 := by norm_num
  have hbm : m < 2 ^ 8 := hm
  rw [Nat.testBit_or, h1, h2,
    Nat.testBit_mul_pow_two_add h hb0 i,
    Nat.testBit_mul_pow_two_add h hbm i]
  by_cases hc : i < 8
  · simp [hc]
  · have hmi : m.testBit i = false := by
      apply Nat.testBit_lt_two_pow
      calc m < 2 ^ 8 := hm
        _ ≤ 2 ^ i := Nat.pow_le_pow_right (by norm_num) (by omega)
    simp [hc, hmi]

/-- The high-byte fetch address of the JMP-indirect arm equals the
specification's page-preserving formula, for every pointer. -/
theorem jmp_high_addr (ptr : Nat) :
    (if ptr &&& 0x00FF == 0x00FF then ptr &&& 0xFF00 else (ptr + 1) % 65536)
    = (ptr &&& 0xFF00) ||| ((ptr + 1) &&& 0x00FF) := by
  rw [and_mask_ff, and_mask_ff00, and_mask_ff]
  have hm : (ptr + 1) % 256 < 256 := Nat.mod_lt _ (by norm_num)
  have hor := or_mul_add (ptr / 256 % 256) ((ptr + 1) % 256) hm
  by_cases h : ptr % 256 = 255
  · have h0 : (ptr + 1) % 256 = 0 := by omega
    simp [h, h0]
  · have hne : (ptr % 256 == 255) = false := by simp [h]
    rw [hne, if_neg (by simp [h]), hor]
    omega

/-- The concrete memory of the JMP-indirect boundary example:
`[0x0000] = 0x40`, `[0x00FF] = 0x50`, `[0x0100] = 0x30`. -/
def jmpExampleMem : Nat → Nat := fun a =>
  if a = 0x0000 then 0x40 else if a = 0x00FF then 0x50
  else if a = 0x0100 then 0x30 else 0

/-- C7: For every 16-bit operand pointer `ptr`, executing JMP Indirect sets
the new program counter's low byte to the memory byte at `ptr` and its high
byte to the byte at `(ptr & 0xFF00) | ((ptr + 1) & 0x00FF)`, so the
high-byte fetch never crosses a 256-byte page; in particular with
`ptr = 0x00FF`, memory `[0x00FF] = 0x50` and `[0x0000] = 0x40`, the jump
target is `0x4050`. -/
theorem C7_jmp_indirect_no_page_cross :
    (∀ (m : Nat → Nat) (ptr : Nat),
      jmp_indirect_target m ptr =
        m ptr + 256 * m ((ptr &&& 0xFF00) ||| ((ptr + 1) &&& 0x00FF))) ∧
    jmp_indirect_target jmpExampleMem 0x00FF = 0x4050 := by
  constructor
  · intro m ptr
    unfold jmp_indirect_target
    rw [← jmp_high_addr ptr]
    by_cases hc : (ptr &&& 0x00FF == 0x00FF) = true
    · rw [if_pos hc, if_pos hc]
    · rw [if_neg hc, if_neg hc]
  · decide

/-- C1: for every pre-instruction accumulator A, carry flag C and operand
byte M read through the resolved addressing mode, ADC computes
`sum = A + M + C`, sets C to `sum > 0xFF`, sets V iff
`(A ^ result) & (M ^ result) & 0x80 ≠ 0` with `result = sum mod 256`,
stores `result` in A, and sets Z iff `result = 0`, N iff bit 7 of
`result`. -/
theorem C1_adc_full_semantics (c : CPU) (mode : AddressingMode) (addr : Nat)
    (h : c.get_operand_address mode = some addr) (hP : c.status < 256) :
    ∃ c', c.adc mode = some c' ∧
      c'.register_accumulator =
        (c.register_accumulator + c.read_mem addr +
          (if get_flag c.status .Carry then 1 else 0)) % 256 ∧
      get_flag c'.status .Carry =
        decide (c.register_accumulator + c.read_mem addr +
          (if get_flag c.status .Carry then 1 else 0) > 0xFF) ∧
      get_flag c'.status .Overflow =
        (((c.register_accumulator ^^^ c'.register_accumulator) &&&
          (c.read_mem addr ^^^ c'.register_accumulator) &&& 0x80) != 0) ∧
      get_flag c'.status .Zero = (c'.register_accumulator == 0) ∧
      get_flag c'.status .Negative = c'.register_accumulator.testBit 7 := by
  refine ⟨c.add_width_carry (c.read_mem addr), ?_, ?_, ?_, ?_, ?_, ?_⟩
  · simp [CPU.adc, h]
  · simp [CPU.add_width_carry, CPU.load_accumulator]
  · simp only [CPU.add_width_carry, CPU.load_accumulator]
    rw [get_update_zn_other _ _ (set_flag_lt _ (set_flag_lt _ hP _ _) _ _) _
        (by decide) (by decide),
      get_flag_set_flag _ (set_flag_lt _ hP _ _) _ _ _,
      get_flag_set_flag _ hP _ _ _]
    simp
  · simp only [CPU.add_width_carry, CPU.load_accumulator]
    rw [get_update_zn_other _ _ (set_flag_lt _ (set_flag_lt _ hP _ _) _ _) _
        (by decide) (by decide),
      get_flag_set_flag _ (set_flag_lt _ hP _ _) _ _ _]
    rw [if_pos rfl]
    congr 1
    ac_rfl
  · simp only [CPU.add_width_carry, CPU.load_accumulator]
    rw [get_update_zn_Zero _ _ (set_flag_lt _ (set_flag_lt _ hP _ _) _ _)]
  · simp only [CPU.add_width_carry, CPU.load_accumulator]
    rw [get_update_zn_Negative _ _ (set_flag_lt _ (set_flag_lt _ hP _ _) _ _),
      land_eighty_testBit _ (Nat.mod_lt _ (by norm_num))]

/-- Concrete ADC example state: A = 0x50, carry clear, every memory byte
0x50. -/
def adcExampleCPU : CPU :=
  { program_counter := 0x8000
    stack_pointer := STACK_RESET
    register_accumulator := 0x50
    index_register_x := 0
    index_register_y := 0
    status := STATUS_RESET
    mem := fun _ => 0x50 }

/-- Witness for C1: `0x50 + 0x50` with carry clear gives `A = 0xA0`,
`V = 1`, `C = 0`, `N = 1`. -/
theorem C1_adc_full_semantics_witness :
    ∃ c', adcExampleCPU.adc .Immediate = some c' ∧
      c'.register_accumulator = 0xA0 ∧
      get_flag c'.status .Overflow = true ∧
      get_flag c'.status .Carry = false ∧
      get_flag c'.status .Negative = true ∧
      get_flag c'.status .Zero = false := by
  obtain ⟨c', hs, hA, hC, hV, hZ, hN⟩ :=
    C1_adc_full_semantics adcExampleCPU .Immediate
      adcExampleCPU.program_counter rfl (by decide)
  rw [hA] at hV hZ hN
  refine ⟨c', hs, ?_, ?_, ?_, ?_, ?_⟩
  · rw [hA]; decide
  · rw [hV]; decide
  · rw [hC]; decide
  · rw [hN]; decide
  · rw [hZ]; decide

/-- A CPU state at reset defaults (status 0x24, carry clear), used to
evaluate the rotate instructions. -/
def rotExampleCPU : CPU :=
  { program_counter := 0x8000
    stack_pointer := STACK_RESET
    register_accumulator := 0
    index_register_x := 0
    index_register_y := 0
    status := STATUS_RESET
    mem := fun _ => 0 }

/-- C2 (refuting evaluation): with the previous carry flag clear, the
code's ROL of 0x80 returns 0x01 and its ROR of 0x01 returns 0x80 — the bit
inserted into the vacated position is the freshly computed outgoing bit.
Under the claim (insert the previous carry flag) both results would be
0x00, as the last two conjuncts compute. -/
theorem C2_rol_ror_insert_fresh_carry :
    get_flag rotExampleCPU.status .Carry = false ∧
    (rotExampleCPU.rol 0x80).2 = 0x01 ∧
    (rotExampleCPU.ror 0x01).2 = 0x80 ∧
    ((0x80 <<< 1) % 256) |||
      (if get_flag rotExampleCPU.status .Carry then 1 else 0) = 0x00 ∧
    ((0x01 >>> 1) |||
      (if get_flag rotExampleCPU.status .Carry then 0x80 else 0)) = 0x00 := by
  decide

/-- Memory with reset vector 0x8000 and program `A9 00 24 10`
(LDA #0x00; BIT $10), with `[0x10] = 0xFF`. -/
def bitExampleMem : Nat → Nat := fun a =>
  if a = 0xFFFC then 0x00 else if a = 0xFFFD then 0x80
  else if a = 0x8000 then 0xA9 else if a = 0x8001 then 0x00
  else if a = 0x8002 then 0x24 else if a = 0x8003 then 0x10
  else if a = 0x10 then 0xFF else 0

/-- C3 (refuting evaluation): after `LDA #0x00; BIT $10` with
`[0x10] = 0xFF`, the code leaves V = 0 and N = 0 (it computes both from
`A & M = 0`), although bits 6 and 7 of the operand M = 0xFF are set, so the
claim (V, N taken from M) demands V = 1 and N = 1. -/
theorem C3_bit_flags_taken_from_and_result :
    (runN 2 (resetCPU bitExampleMem)).map
      (fun c => (get_flag c.status .Overflow, get_flag c.status .Negative,
        get_flag c.status .Zero)) = some (false, false, true) ∧
    bitExampleMem 0x10 &&& 0x40 ≠ 0 ∧
    bitExampleMem 0x10 &&& 0x80 ≠ 0 := by
  decide

/-- Memory with reset vector 0x8000 and program `A9 00 48 28`
(LDA #0x00; PHA; PLP): pushes the byte 0x00 and pulls it into P. -/
def plpExampleMem : Nat → Nat := fun a =>
  if a = 0xFFFC then 0x00 else if a = 0xFFFD then 0x80
  else if a = 0x8000 then 0xA9 else if a = 0x8001 then 0x00
  else if a = 0x8002 then 0x48 else if a = 0x8003 then 0x28 else 0

/-- C4 (refuting evaluation): three documented instructions from reset
(`LDA #0x00; PHA; PLP`) reach a state whose whole status byte is 0x00, so
bit 5 of P is 0; `set_from_byte` copies the pulled byte verbatim and does
not force bit 5. -/
theorem C4_bit5_not_forced_after_plp :
    (runN 3 (resetCPU plpExampleMem)).map
      (fun c => (c.status, c.status &&& 0x20)) = some (0x00, 0x00) ∧
    set_from_byte STATUS_RESET 0x00 = 0x00 := by
  decide

/-- Memory with reset vector 0x8000 and program `A9 01 06 10`
(LDA #0x01; ASL $10), with `[0x10] = 0x80`. -/
def aslExampleMem : Nat → Nat := fun a =>
  if a = 0xFFFC then 0x00 else if a = 0xFFFD then 0x80
  else if a = 0x8000 then 0xA9 else if a = 0x8001 then 0x01
  else if a = 0x8002 then 0x06 else if a = 0x8003 then 0x10
  else if a = 0x10 then 0x80 else 0

/-- C5 (refuting evaluation): `LDA #0x01; ASL $10` with `[0x10] = 0x80`
writes the shifted result 0x00 back to memory, yet Z ends up 0, because the
memory-mode shift arms update Z/N from the accumulator (here 0x01), not
from the written-back result as the claim states. -/
theorem C5_shift_memory_zn_from_accumulator :
    (runN 2 (resetCPU aslExampleMem)).map
      (fun c => (c.mem 0x10, get_flag c.status .Zero,
        get_flag c.status .Carry)) = some (0x00, false, true) := by
  decide

/-- C8 (refuting evaluation): for a header with the NES tag and byte 7 =
0x04 (bits 2–3 nonzero: `0x04 & 0x0C ≠ 0`) the loader does not return the
version error — the misparenthesised mask `raw[7] & 0b0000_1100 >> 2`
tests bits 0–1 — and instead panics slicing the PRG ROM; for byte 7 = 0x01
(bits 2–3 zero: `0x01 & 0x0C = 0`) it does return the version error. -/
theorem C8_ines_version_bits01 :
    ROM.new [0x4E, 0x45, 0x53, 0x1A, 0x00, 0x00, 0x00, 0x04] = .crash ∧
    ROM.new [0x4E, 0x45, 0x53, 0x1A, 0x00, 0x00, 0x00, 0x01] =
      .err "Only iNES version 1 supported" ∧
    0x04 &&& 0x0C ≠ 0 ∧
    0x01 &&& 0x0C = 0 := by
  decide

/-- A CPU state with the stack pointer at 0, about to push. -/
def pushOverflowCPU : CPU :=
  { program_counter := 0x8000
    stack_pointer := 0
    register_accumulator := 0
    index_register_x := 0
    index_register_y := 0
    status := STATUS_RESET
    mem := fun _ => 0 }

/-- A CPU state with the stack pointer at 0xFF, about to pull;
`[0x0200] = 0xAB` and `[0x0100] = 0xCD` distinguish the two candidate read
addresses. -/
def pullTopCPU : CPU :=
  { program_counter := 0x8000
    stack_pointer := 0xFF
    register_accumulator := 0
    index_register_x := 0
    index_register_y := 0
    status := STATUS_RESET
    mem := fun a => if a = 0x0200 then 0xAB else if a = 0x0100 then 0xCD
      else 0 }

/-- C6 counterexample: at SP = 0 a push does not wrap to 0xFF — it aborts
(the source executes `panic!("Stack Overflow!")`, modelled as `none`); and
at SP = 0xFF a pull does not wrap to SP = 0x00 reading `0x0100` (= 0xCD
here) — it reads `0x0100 + 0xFF + 1 = 0x0200` (= 0xAB) and leaves SP at
0xFF because the increment is skipped for SP ≥ 0xFD. -/
theorem C6_stack_wrap_counterexample :
    pushOverflowCPU.stack_push 0x42 = none ∧
    (pullTopCPU.stack_pull).2 = 0xAB ∧
    (pullTopCPU.stack_pull).1.stack_pointer = 0xFF ∧
    pullTopCPU.mem 0x0100 = 0xCD := by
  exact ⟨rfl, by decide, by decide, by decide⟩

/-- C6 (amended): a push with SP > 0 writes the byte at `0x0100 + SP` and
decrements SP; a push with SP = 0 fails (source panic) instead of
wrapping; a pull reads from `0x0100 + SP + 1` (computed in 16 bits, so it
does not wrap back into page 1) and increments SP only while SP < 0xFD,
leaving memory unchanged. -/
theorem C6_stack_push_pull_behavior (c : CPU) (v : Nat) :
    (c.stack_pointer = 0 → c.stack_push v = none) ∧
    (0 < c.stack_pointer →
      ∃ c', c.stack_push v = some c' ∧
        c'.mem (STACK + c.stack_pointer) = v ∧
        c'.stack_pointer = c.stack_pointer - 1 ∧
        c'.program_counter = c.program_counter ∧
        ∀ a, a ≠ STACK + c.stack_pointer → c'.mem a = c.mem a) ∧
    (c.stack_pull).2 = c.mem (STACK + c.stack_pointer + 1) ∧
    (c.stack_pull).1.stack_pointer =
      (if c.stack_pointer < STACK_RESET then c.stack_pointer + 1
       else c.stack_pointer) ∧
    (c.stack_pull).1.mem = c.mem := by
  refine ⟨?_, ?_, ?_, ?_, ?_⟩
  · intro h
    simp [CPU.stack_push, h]
  · intro h
    refine ⟨{ c.write_mem (STACK + c.stack_pointer) v with
      stack_pointer := c.stack_pointer - 1 }, ?_, ?_, ?_, ?_, ?_⟩
    · simp [CPU.stack_push, h]
    · simp [CPU.stack_push, h, CPU.write_mem]
    · simp [CPU.stack_push, h, CPU.write_mem]
    · simp [CPU.stack_push, h, CPU.write_mem]
    · intro a ha
      simp [CPU.stack_push, h, CPU.write_mem, ha]
  · by_cases hc : c.stack_pointer < STACK_RESET <;>
      simp [CPU.stack_pull, CPU.read_mem, hc]
  · by_cases hc : c.stack_pointer < STACK_RESET <;>
      simp [CPU.stack_pull, CPU.read_mem, hc]
  · by_cases hc : c.stack_pointer < STACK_RESET <;>
      simp [CPU.stack_pull, CPU.read_mem, hc]

/-- A CPU state at the reset stack pointer with constant memory 7. -/
def stackWitnessCPU : CPU :=
  { program_counter := 0x8000
    stack_pointer := 0xFD
    register_accumulator := 0
    index_register_x := 0
    index_register_y := 0
    status := STATUS_RESET
    mem := fun _ => 7 }

/-- Witness for the amended C6 theorem at SP = 0xFD. -/
theorem C6_stack_push_pull_behavior_witness :
    (0 : Nat) < stackWitnessCPU.stack_pointer ∧
    ∃ c', stackWitnessCPU.stack_push 0x42 = some c' ∧
      c'.mem 0x1FD = 0x42 ∧
      c'.stack_pointer = 0xFC ∧
      (stackWitnessCPU.stack_pull).2 = 7 := by
  obtain ⟨h0, hpush, hp1, hp2, hp3⟩ :=
    C6_stack_push_pull_behavior stackWitnessCPU 0x42
  obtain ⟨c', hs, hm, hsp, hpc, hother⟩ := hpush (by decide)
  refine ⟨by decide, c', hs, ?_, ?_, ?_⟩
  · show c'.mem (STACK + stackWitnessCPU.stack_pointer) = 0x42
    exact hm
  · rw [hsp]; decide
  · rw [hp1]; decide

/-- The branch-taking conditions of the eight relative-branch arms of the
dispatch (`BCC`/`BCS`/`BEQ`/`BMI`/`BNE`/`BPL`/`BVC`/`BVS`), keyed by
opcode byte, as read off the source dispatch. -/
def branchTaken (code p : Nat) : Bool :=
  if code = 0x90 then !(get_flag p .Carry)
  else if code = 0xB0 then get_flag p .Carry
  else if code = 0xF0 then get_flag p .Zero
  else if code = 0x30 then get_flag p .Negative
  else if code = 0xD0 then !(get_flag p .Zero)
  else if code = 0x10 then !(get_flag p .Negative)
  else if code = 0x50 then !(get_flag p .Overflow)
  else if code = 0x70 then get_flag p .Overflow
  else false

/-- C9: for every taken branch with displacement byte 0xFF, the branch
target `(PC_after_opcode + 1) + (-1)` equals the recorded post-fetch PC
(second conjunct), so the loop's redirect detection fails to fire, it
still adds `bytes - 1 = 1`, and the step ends with PC one byte past the
branch target, i.e. at `PC + 2` (third conjunct). -/
theorem C9_branch_displacement_ff (c : CPU) (hpc : c.program_counter < 65536)
    (code : Nat)
    (hcode : code ∈ [0x90, 0xB0, 0xF0, 0x30, 0xD0, 0x10, 0x50, 0x70])
    (hfetch : c.fetch = code)
    (hdisp : c.read_mem ((c.program_counter + 1) % 65536) = 0xFF)
    (htaken : branchTaken code c.status = true) :
    ∃ c', c.step = .ok c' ∧
      (((c.program_counter + 1) % 65536) + 1 + signExtendByte 0xFF) % 65536 =
        (c.program_counter + 1) % 65536 ∧
      c'.program_counter = (c.program_counter + 2) % 65536 := by
  have harith : ∀ p : Nat, p < 65536 →
      (((p + 1) % 65536) + 1 + signExtendByte 0xFF) % 65536 =
        (p + 1) % 65536 := by
    intro p hp
    unfold signExtendByte
    norm_num
    omega
  simp only [CPU.fetch, CPU.read_mem] at hfetch hdisp
  fin_cases hcode
  · simp only [branchTaken] at htaken
    norm_num at htaken
    have hstep : c.step = .ok { c with program_counter :=
        (((c.program_counter + 1) % 65536) + 1) % 65536 } := by
      simp only [CPU.step, CPU.fetch, CPU.read_mem, hfetch,
        show CPU_OPCODES_MAP 0x90 =
          some ⟨0x90, "BCC", 2, 2, .NoneAddressing⟩ from rfl,
        execArm, CPU.branch, htaken, hdisp, harith _ hpc]
      simp
    refine ⟨_, hstep, harith _ hpc, ?_⟩
    simp only []
    omega
  · simp only [branchTaken] at htaken
    norm_num at htaken
    have hstep : c.step = .ok { c with program_counter :=
        (((c.program_counter + 1) % 65536) + 1) % 65536 } := by
      simp only [CPU.step, CPU.fetch, CPU.read_mem, hfetch,
        show CPU_OPCODES_MAP 0xB0 =
          some ⟨0xB0, "BCS", 2, 2, .NoneAddressing⟩ from rfl,
        execArm, CPU.branch, htaken, hdisp, harith _ hpc]
      simp
    refine ⟨_, hstep, harith _ hpc, ?_⟩
    simp only []
    omega
  · simp only [branchTaken] at htaken
    norm_num at htaken
    have hstep : c.step = .ok { c with program_counter :=
        (((c.program_counter + 1) % 65536) + 1) % 65536 } := by
      simp only [CPU.step, CPU.fetch, CPU.read_mem, hfetch,
        show CPU_OPCODES_MAP 0xF0 =
          some ⟨0xF0, "BEQ", 2, 2, .NoneAddressing⟩ from rfl,
        execArm, CPU.branch, htaken, hdisp, harith _ hpc]
      simp
    refine ⟨_, hstep, harith _ hpc, ?_⟩
    simp only []
    omega
  · simp only [branchTaken] at htaken
    norm_num at htaken
    have hstep : c.step = .ok { c with program_counter :=
        (((c.program_counter + 1) % 65536) + 1) % 65536 } := by
      simp only [CPU.step, CPU.fetch, CPU.read_mem, hfetch,
        show CPU_OPCODES_MAP 0x30 =
          some ⟨0x30, "BMI", 2, 2, .NoneAddressing⟩ from rfl,
        execArm, CPU.branch, htaken, hdisp, harith _ hpc]
      simp
    refine ⟨_, hstep, harith _ hpc, ?_⟩
    simp only []
    omega
  · simp only [branchTaken] at htaken
    norm_num at htaken
    have hstep : c.step = .ok { c with program_counter :=
        (((c.program_counter + 1) % 65536) + 1) % 65536 } := by
      simp only [CPU.step, CPU.fetch, CPU.read_mem, hfetch,
        show CPU_OPCODES_MAP 0xD0 =
          some ⟨0xD0, "BNE", 2, 2, .NoneAddressing⟩ from rfl,
        execArm, CPU.branch, htaken, hdisp, harith _ hpc]
      simp
    refine ⟨_, hstep, harith _ hpc, ?_⟩
    simp only []
    omega
  · simp only [branchTaken] at htaken
    norm_num at htaken
    have hstep : c.step = .ok { c with program_counter :=
        (((c.program_counter + 1) % 65536) + 1) % 65536 } := by
      simp only [CPU.step, CPU.fetch, CPU.read_mem, hfetch,
        show CPU_OPCODES_MAP 0x10 =
          some ⟨0x10, "BPL", 2, 2, .NoneAddressing⟩ from rfl,
        execArm, CPU.branch, htaken, hdisp, harith _ hpc]
      simp
    refine ⟨_, hstep, harith _ hpc, ?_⟩
    simp only []
    omega
  · simp only [branchTaken] at htaken
    norm_num at htaken
    have hstep : c.step = .ok { c with program_counter :=
        (((c.program_counter + 1) % 65536) + 1) % 65536 } := by
      simp only [CPU.step, CPU.fetch, CPU.read_mem, hfetch,
        show CPU_OPCODES_MAP 0x50 =
          some ⟨0x50, "BVC", 2, 2, .NoneAddressing⟩ from rfl,
        execArm, CPU.branch, htaken, hdisp, harith _ hpc]
      simp
    refine ⟨_, hstep, harith _ hpc, ?_⟩
    simp only []
    omega
  · simp only [branchTaken] at htaken
    norm_num at htaken
    have hstep : c.step = .ok { c with program_counter :=
        (((c.program_counter + 1) % 65536) + 1) % 65536 } := by
      simp only [CPU.step, CPU.fetch, CPU.read_mem, hfetch,
        show CPU_OPCODES_MAP 0x70 =
          some ⟨0x70, "BVS", 2, 2, .NoneAddressing⟩ from rfl,
        execArm, CPU.branch, htaken, hdisp, harith _ hpc]
      simp
    refine ⟨_, hstep, harith _ hpc, ?_⟩
    simp only []
    omega

/-- A reset-like state whose program is `BCC -1` (`90 FF`) at 0x8000 with
carry clear. -/
def branchWitnessCPU : CPU :=
  { program_counter := 0x8000
    stack_pointer := 0xFD
    register_accumulator := 0
    index_register_x := 0
    index_register_y := 0
    status := STATUS_RESET
    mem := fun a => if a = 0x8000 then 0x90 else if a = 0x8001 then 0xFF
      else 0 }

/-- Witness for C9: the taken `BCC -1` at 0x8000 ends the step at 0x8002,
one past its own operand byte (the branch target 0x8001). -/
theorem C9_branch_displacement_ff_witness :
    ∃ c', branchWitnessCPU.step = .ok c' ∧
      c'.program_counter = 0x8002 := by
  obtain ⟨c', hs, htarget, hpc⟩ :=
    C9_branch_displacement_ff branchWitnessCPU (by decide) 0x90 (by decide)
      (by decide) (by decide) (by decide)
  refine ⟨c', hs, ?_⟩
  rw [hpc]; decide

/-- C10: executing PHP rewrites the live status register with B (bit 4)
set, and the byte pushed at `0x0100 + SP` is exactly that modified status
byte. -/
theorem C10_php_sets_b_in_live_status (c : CPU) (hfetch : c.fetch = 0x08)
    (hP : c.status < 256) (hsp : 0 < c.stack_pointer) :
    ∃ c', c.step = .ok c' ∧
      c'.status = set_flag c.status .B true ∧
      get_flag c'.status .B = true ∧
      c'.mem (STACK + c.stack_pointer) = c'.status ∧
      c'.stack_pointer = c.stack_pointer - 1 := by
  simp only [CPU.fetch, CPU.read_mem] at hfetch
  have hstep : c.step = .ok
      { program_counter := ((c.program_counter + 1) % 65536 + 0) % 65536
        stack_pointer := c.stack_pointer - 1
        register_accumulator := c.register_accumulator
        index_register_x := c.index_register_x
        index_register_y := c.index_register_y
        status := set_flag c.status .B true
        mem := fun a => if a = STACK + c.stack_pointer
          then set_flag c.status .B true else c.mem a } := by
    simp only [CPU.step, CPU.fetch, CPU.read_mem, hfetch,
      show CPU_OPCODES_MAP 0x08 =
        some ⟨0x08, "PHP", 1, 3, .NoneAddressing⟩ from rfl,
      execArm, withPush, CPU.stack_push, CPU.write_mem]
    rw [if_pos hsp]
    simp
  refine ⟨_, hstep, rfl, ?_, ?_, rfl⟩
  · rw [get_flag_set_flag _ hP _ _ _]
    simp
  · simp

/-- A reset-like state whose program is PHP (`08`) at 0x8000. -/
def phpWitnessCPU : CPU :=
  { program_counter := 0x8000
    stack_pointer := 0xFD
    register_accumulator := 0
    index_register_x := 0
    index_register_y := 0
    status := STATUS_RESET
    mem := fun a => if a = 0x8000 then 0x08 else 0 }

/-- Witness for C10: PHP from status 0x24 leaves the live status 0x34
(bit 4 set) and pushes that same byte at 0x01FD. -/
theorem C10_php_sets_b_in_live_status_witness :
    ∃ c', phpWitnessCPU.step = .ok c' ∧
      c'.status = 0x34 ∧
      get_flag c'.status .B = true ∧
      c'.mem 0x1FD = 0x34 ∧
      c'.stack_pointer = 0xFC := by
  obtain ⟨c', hs, hst, hb, hm, hsp⟩ :=
    C10_php_sets_b_in_live_status phpWitnessCPU rfl (by decide) (by decide)
  refine ⟨c', hs, ?_, hb, ?_, ?_⟩
  · rw [hst]; decide
  · show c'.mem (STACK + phpWitnessCPU.stack_pointer) = 0x34
    rw [hm, hst]; decide
  · rw [hsp]; decide
